import Mathlib

/-!
Verification of the control-and-history subsystem of `app.py`, the
hysteresis-based thermal fan controller.

The embedding is shallow: timestamps, temperatures and durations are
modelled as exact rationals (`ℚ`), the history deque as a `List (ℚ × Bool)`
with the front of the list being the oldest entry, Python byte strings as
`List Nat`, and fallible operations (temperature read, actuator send,
settings save) as explicit `Option`/`Bool` parameters of the pure step
functions.  Every definition follows the corresponding Python function;
its doc comment names the source symbol.
-/

namespace FanController

/-! ## Hysteresis decision (`fan_control_loop`, lines 420-431) -/

/-- The state-decision logic of one cycle of `fan_control_loop`:
`new_state = current_fan_state`; `if temp >= local_ceiling and not
current_fan_state: new_state = True`; `elif temp < local_floor and
current_fan_state: new_state = False`. -/
def fan_decision (local_ceiling local_floor temp : ℚ) (current_fan_state : Bool) : Bool :=
  if temp ≥ local_ceiling ∧ ¬current_fan_state then
    true
  else if temp < local_floor ∧ current_fan_state then
    false
  else
    current_fan_state

/-! ## One cycle of the control loop (`fan_control_loop`, lines 376-455) -/

/-- The mutable state owned by the control loop: `fan_state`,
`fan_history` (a deque of `(timestamp, state)` pairs, oldest first) and
`current_temp` (the last known temperature, `none` before any
successful read). -/
structure LoopState where
  fan_state : Bool
  fan_history : List (ℚ × Bool)
  current_temp : Option ℚ
  deriving Repr, DecidableEq

/-- History pruning (`fan_control_loop`, lines 408-410):
`while fan_history and fan_history[0][0] < cutoff_time: fan_history.popleft()`. -/
def prune_history (cutoff_time : ℚ) (fan_history : List (ℚ × Bool)) : List (ℚ × Bool) :=
  fan_history.dropWhile (fun e => e.1 < cutoff_time)

/-- One iteration of the `while not stop_thread.is_set()` loop of
`fan_control_loop` (lines 376-455), parameterised by the settings read
at the top of the cycle, the wall clock `now`, the result of
`get_ssd_temp` (`none` on a failed read) and the result of `set_fan`
(`send_ok`, `true` when the actuator command was sent successfully).
The pruning at lines 389-391 and lines 408-410 uses the same `now` and
cutoff, so it is applied once. -/
def fan_control_cycle (local_ceiling local_floor local_check_interval local_history_duration : ℚ)
    (now : ℚ) (temp : Option ℚ) (send_ok : Bool) (st : LoopState) : LoopState :=
  let cutoff_time := now - local_history_duration
  let pruned := prune_history cutoff_time st.fan_history
  match temp with
  | none =>
      -- `current_temp = temp if temp is not None else current_temp`, then
      -- the `if temp is None: ... continue` branch: skip the state check.
      { fan_state := st.fan_state, fan_history := pruned, current_temp := st.current_temp }
  | some t =>
      let current_fan_state := st.fan_state
      let new_state := fan_decision local_ceiling local_floor t current_fan_state
      if new_state ≠ current_fan_state then
        if send_ok then
          -- `fan_state = new_state; fan_history.append((now, new_state))`
          { fan_state := new_state,
            fan_history := pruned ++ [(now, new_state)],
            current_temp := some t }
        else
          -- `set_fan` failed: state and history are left unchanged.
          { fan_state := current_fan_state, fan_history := pruned, current_temp := some t }
      else
        -- `if not fan_history or (now - fan_history[-1][0]).total_seconds()
        --     > local_check_interval * 1.5: fan_history.append((now, fan_state))`
        match pruned.getLast? with
        | none =>
            { fan_state := current_fan_state,
              fan_history := pruned ++ [(now, current_fan_state)],
              current_temp := some t }
        | some last =>
            if now - last.1 > local_check_interval * 1.5 then
              { fan_state := current_fan_state,
                fan_history := pruned ++ [(now, current_fan_state)],
                current_temp := some t }
            else
              { fan_state := current_fan_state, fan_history := pruned, current_temp := some t }

end FanController

namespace FanController

/-- Claim C1: in every cycle with a successful temperature reading, the
hysteresis decision satisfies: temperature at or above the ceiling with
the fan OFF targets ON; temperature strictly below the floor with the
fan ON targets OFF; any temperature strictly between floor and ceiling
leaves the state unchanged whatever the prior state; and temperature
exactly equal to the floor with the fan ON stays ON (the floor
comparison is strict). -/
theorem fan_decision_hysteresis (c f t : ℚ) (s : Bool) :
    (t ≥ c → s = false → fan_decision c f t s = true) ∧
    (t < f → s = true → fan_decision c f t s = false) ∧
    (f < t → t < c → fan_decision c f t s = s) ∧
    (t = f → s = true → fan_decision c f t s = true) := by
  refine ⟨?_, ?_, ?_, ?_⟩
  · intro h hs
    simp [fan_decision, h, hs]
  · intro h hs
    simp [fan_decision, h, hs]
  · intro h1 h2
    have hnc : ¬ t ≥ c := not_le.mpr h2
    have hnf : ¬ t < f := not_lt.mpr (le_of_lt h1)
    simp [fan_decision, hnc, hnf]
  · intro h hs
    have hnf : ¬ t < f := by
      subst h
      exact lt_irrefl t
    simp [fan_decision, hs, hnf]

/-- Witness for `fan_decision_hysteresis` at the spec's example
thresholds (ceiling 49.5, floor 45.0). -/
theorem fan_decision_hysteresis_witness :
    fan_decision 49.5 45.0 49.5 false = true ∧
    fan_decision 49.5 45.0 44.9 true = false ∧
    fan_decision 49.5 45.0 47.0 true = true ∧
    fan_decision 49.5 45.0 45.0 true = true := by
  refine ⟨?_, ?_, ?_, ?_⟩
  · exact (fan_decision_hysteresis 49.5 45.0 49.5 false).1 (by norm_num) rfl
  · exact (fan_decision_hysteresis 49.5 45.0 44.9 true).2.1 (by norm_num) rfl
  · exact (fan_decision_hysteresis 49.5 45.0 47.0 true).2.2.1 (by norm_num) (by norm_num)
  · exact (fan_decision_hysteresis 49.5 45.0 45.0 true).2.2.2 rfl rfl

/-- Claim C2: when the hysteresis decision requires a transition but
`set_fan` fails, the cycle leaves `fan_state` unchanged and appends no
`HistoryEvent` (the history is only pruned), and the next cycle in
which the decision is the same and the send succeeds commits the
transition and appends the event. -/
theorem fan_control_cycle_send_failure (c f i d now now' t : ℚ) (st : LoopState)
    (hd : fan_decision c f t st.fan_state ≠ st.fan_state) :
    (fan_control_cycle c f i d now (some t) false st).fan_state = st.fan_state ∧
    (fan_control_cycle c f i d now (some t) false st).fan_history =
      prune_history (now - d) st.fan_history ∧
    (fan_control_cycle c f i d now' (some t) true
        (fan_control_cycle c f i d now (some t) false st)).fan_state =
      fan_decision c f t st.fan_state ∧
    (fan_control_cycle c f i d now' (some t) true
        (fan_control_cycle c f i d now (some t) false st)).fan_history =
      prune_history (now' - d) (prune_history (now - d) st.fan_history) ++
        [(now', fan_decision c f t st.fan_state)] := by
  have h1 : fan_control_cycle c f i d now (some t) false st =
      { fan_state := st.fan_state,
        fan_history := prune_history (now - d) st.fan_history,
        current_temp := some t } := by
    simp [fan_control_cycle, hd]
  refine ⟨by rw [h1], by rw [h1], ?_, ?_⟩
  · rw [h1]
    simp [fan_control_cycle, hd]
  · rw [h1]
    simp [fan_control_cycle, hd]

/-- Witness for `fan_control_cycle_send_failure`: temperature 50 °C
above the 49.5 °C ceiling with the fan OFF; the failed send at time 10
changes nothing and the successful send at time 12 commits ON. -/
theorem fan_control_cycle_send_failure_witness :
    fan_decision 49.5 45.0 50 (LoopState.mk false [(0, false)] none).fan_state ≠
      (LoopState.mk false [(0, false)] none).fan_state ∧
    (fan_control_cycle 49.5 45.0 2 86400 10 (some 50) false
        (LoopState.mk false [(0, false)] none)).fan_state = false ∧
    (fan_control_cycle 49.5 45.0 2 86400 12 (some 50) true
        (fan_control_cycle 49.5 45.0 2 86400 10 (some 50) false
          (LoopState.mk false [(0, false)] none))).fan_history =
      [(0, false), (12, true)] := by
  have hd : fan_decision 49.5 45.0 50 (LoopState.mk false [(0, false)] none).fan_state ≠
      (LoopState.mk false [(0, false)] none).fan_state := by
    norm_num [fan_decision]
  have h := fan_control_cycle_send_failure 49.5 45.0 2 86400 10 12 50
    (LoopState.mk false [(0, false)] none) hd
  refine ⟨hd, ?_, ?_⟩
  · rw [h.1]
  · rw [h.2.2.2]
    norm_num [prune_history, List.dropWhile, fan_decision]

/-- Every event surviving `prune_history` has a timestamp at or after
the cutoff, provided the history is sorted by timestamp (the loop only
ever appends at the current time, so the deque is sorted). -/
theorem prune_history_bound (cutoff : ℚ) (l : List (ℚ × Bool))
    (hs : l.Pairwise (fun a b => a.1 ≤ b.1)) :
    ∀ e ∈ prune_history cutoff l, cutoff ≤ e.1 := by
  induction l with
  | nil => simp [prune_history]
  | cons a t ih =>
    rw [List.pairwise_cons] at hs
    by_cases ha : a.1 < cutoff
    · have : prune_history cutoff (a :: t) = prune_history cutoff t := by
        simp [prune_history, List.dropWhile, ha]
      rw [this]
      exact ih hs.2
    · have : prune_history cutoff (a :: t) = a :: t := by
        simp [prune_history, List.dropWhile, ha]
      rw [this]
      intro e he
      rcases List.mem_cons.mp he with rfl | het
      · exact not_lt.mp ha
      · exact le_trans (not_lt.mp ha) (hs.1 e het)

/-- After a cycle, the history is the pruned input history, possibly
with one event appended at the current time (whatever the branch
taken: sensor failure, committed transition, failed transition, or
liveness marker). -/
theorem fan_control_cycle_history_shape (c f i d now : ℚ) (temp : Option ℚ)
    (send_ok : Bool) (st : LoopState) :
    (fan_control_cycle c f i d now temp send_ok st).fan_history =
      prune_history (now - d) st.fan_history ∨
    ∃ x, (fan_control_cycle c f i d now temp send_ok st).fan_history =
      prune_history (now - d) st.fan_history ++ [(now, x)] := by
  cases temp with
  | none => exact Or.inl rfl
  | some t =>
    simp only [fan_control_cycle]
    split
    · split
      · exact Or.inr ⟨_, rfl⟩
      · exact Or.inl rfl
    · split
      · exact Or.inr ⟨_, rfl⟩
      · split
        · exact Or.inr ⟨_, rfl⟩
        · exact Or.inl rfl

/-- Claim C5 (amended): after a cycle, every retained history event has
timestamp at or after `now - history_duration`, provided the incoming
history is sorted by timestamp and the retention duration is
nonnegative.  (The second half of the original claim — that the log is
never emptied once an event has been appended — is refuted by
`fan_control_cycle_empties_history`.) -/
theorem fan_control_cycle_retention (c f i d now : ℚ) (temp : Option ℚ)
    (send_ok : Bool) (st : LoopState)
    (hs : st.fan_history.Pairwise (fun a b => a.1 ≤ b.1))
    (hd : 0 ≤ d) :
    ∀ e ∈ (fan_control_cycle c f i d now temp send_ok st).fan_history,
      now - d ≤ e.1 := by
  have hb := prune_history_bound (now - d) st.fan_history hs
  rcases fan_control_cycle_history_shape c f i d now temp send_ok st with h | ⟨x, h⟩
  · rw [h]
    exact hb
  · rw [h]
    intro e he
    rcases List.mem_append.mp he with he | he
    · exact hb e he
    · rcases List.mem_singleton.mp he with rfl
      simp
      linarith

/-- Witness for `fan_control_cycle_retention`: a sorted two-event
history at times 0 and 6 with retention 5 ending at time 10 — only the
event at 6 (and the appended liveness marker) survive, both at or
after the cutoff 5. -/
theorem fan_control_cycle_retention_witness :
    ([((0 : ℚ), false), (6, false)] :
        List (ℚ × Bool)).Pairwise (fun a b => a.1 ≤ b.1) ∧
    ∀ e ∈ (fan_control_cycle 49.5 45.0 2 5 10 (some 47) true
        (LoopState.mk false [(0, false), (6, false)] none)).fan_history,
      (10 : ℚ) - 5 ≤ e.1 := by
  constructor
  · norm_num
  · exact fan_control_cycle_retention 49.5 45.0 2 5 10 (some 47) true
      (LoopState.mk false [(0, false), (6, false)] none) (by norm_num) (by norm_num)

/-- Counterexample to the second half of claim C5: a cycle with a
failed temperature reading prunes the single retained event (timestamp
0, cutoff 10 - 5 = 5) and leaves the history log empty, even though an
event had been appended before. -/
theorem fan_control_cycle_empties_history :
    (fan_control_cycle 49.5 45.0 2 5 10 none true
      (LoopState.mk false [(0, false)] none)).fan_history = [] := by
  norm_num [fan_control_cycle, prune_history, List.dropWhile]

/-! ## History aggregation (`_get_state_at_time` and `chart_data`, lines 324-336 and 596-713) -/

/-- `_get_state_at_time(timestamp, history_list, default_state)`:
scan the history backwards for the last event with `ts <= timestamp`;
return `default_state` when no such event exists. -/
def _get_state_at_time (timestamp : ℚ) (history_list : List (ℚ × Bool))
    (default_state : Bool) : Bool :=
  match history_list.reverse.find? (fun e => decide (e.1 ≤ timestamp)) with
  | some e => e.2
  | none => default_state

/-- The `for ts, state in history_copy:` loop of `chart_data` (lines
669-683): every event strictly after the window start closes the
current interval, adds its positive duration to the ON or OFF bucket
according to the state active during it, and starts a new interval.
The accumulator is `(total_on_time, total_off_time,
current_interval_start, current_state_in_interval)`. -/
def accumulate_pie (chart_window_start : ℚ) :
    List (ℚ × Bool) → ℚ × ℚ × ℚ × Bool → ℚ × ℚ × ℚ × Bool
  | [], acc => acc
  | (ts, state) :: rest, (on_t, off_t, cur_start, cur_state) =>
    if ts > chart_window_start then
      let duration := ts - cur_start
      let on_t' := if duration > 0 ∧ cur_state then on_t + duration else on_t
      let off_t' := if duration > 0 ∧ ¬cur_state then off_t + duration else off_t
      accumulate_pie chart_window_start rest (on_t', off_t', ts, state)
    else
      accumulate_pie chart_window_start rest (on_t, off_t, cur_start, cur_state)

/-- The aggregation result computed by `chart_data` (`on_percentage`
and `off_percentage` as at lines 695-696 before the one-decimal display
rounding applied when building the JSON payload). -/
structure ChartResult where
  on_percentage : ℚ
  off_percentage : ℚ
  total_on_seconds : ℚ
  total_off_seconds : ℚ
  total_charted_seconds : ℚ
  deriving Repr, DecidableEq

/-- The aggregation algorithm of the `chart_data` route (lines
596-713), as a pure function of a snapshot of `fan_history` (oldest
first), the current fan state, the wall clock `now`, the configured
history duration, and the check-interval buffer used by the filter at
line 614.  Steps: filter the raw history to the window plus buffer;
the window start is the later of `now - duration` and the first
filtered event's timestamp, clamped to `now`; a nonpositive total
duration short-circuits to the degenerate branch of lines 647-656;
otherwise the state at the window start comes from
`_get_state_at_time` over the raw history, the events after the window
start are accumulated by `accumulate_pie`, the remaining span up to
`now` is attributed to the current fan state, and
`off_percentage = 100 - on_percentage`. -/
def chart_history_copy (fan_history : List (ℚ × Bool))
    (max_cutoff_time check_interval_buffer : ℚ) : List (ℚ × Bool) :=
  fan_history.filter (fun e => decide (e.1 ≥ max_cutoff_time - check_interval_buffer))

/-- The charting-window start of `chart_data` (lines 627-641): the
later of `max_cutoff_time` and the first filtered event's timestamp,
corrected to `now` when it would lie in the future. -/
def chart_window_start_calc (history_copy : List (ℚ × Bool))
    (max_cutoff_time now : ℚ) : ℚ :=
  let start0 :=
    match history_copy.head? with
    | some e => max max_cutoff_time e.1
    | none => max_cutoff_time
  if start0 > now then now else start0

def chart_data_calc (fan_history : List (ℚ × Bool)) (current_fan_state : Bool)
    (now local_history_duration check_interval_buffer : ℚ) : ChartResult :=
  let max_cutoff_time := now - local_history_duration
  let history_copy := chart_history_copy fan_history max_cutoff_time check_interval_buffer
  let chart_window_start := chart_window_start_calc history_copy max_cutoff_time now
  let total_charted_seconds := now - chart_window_start
  if total_charted_seconds ≤ 0 then
    { on_percentage := if current_fan_state then 100 else 0,
      off_percentage := if ¬current_fan_state then 100 else 0,
      total_on_seconds := 0,
      total_off_seconds := 0,
      total_charted_seconds := 0 }
  else
    let state_at_start := _get_state_at_time chart_window_start fan_history current_fan_state
    let acc := accumulate_pie chart_window_start history_copy
      (0, 0, chart_window_start, state_at_start)
    let duration_last := now - acc.2.2.1
    let total_on := if duration_last > 0 ∧ current_fan_state then acc.1 + duration_last else acc.1
    let total_off :=
      if duration_last > 0 ∧ ¬current_fan_state then acc.2.1 + duration_last else acc.2.1
    let on_percentage := total_on / total_charted_seconds * 100
    { on_percentage := on_percentage,
      off_percentage := 100 - on_percentage,
      total_on_seconds := total_on,
      total_off_seconds := total_off,
      total_charted_seconds := total_charted_seconds }

/-- Claim C10: in every aggregation result the ON and OFF percentages
sum to exactly 100 — the OFF percentage is the complement of the ON
percentage, and the degenerate zero-duration branch reports 100 for
one side and 0 for the other. -/
theorem chart_data_calc_percentages_sum (h : List (ℚ × Bool)) (cur : Bool)
    (now d buf : ℚ) :
    (chart_data_calc h cur now d buf).on_percentage +
      (chart_data_calc h cur now d buf).off_percentage = 100 := by
  unfold chart_data_calc
  dsimp only
  split
  · cases cur <;> norm_num
  · dsimp only
    ring

/-- Claim C4 (amended): an aggregation whose total charted duration is
zero reports 100 % for the side matching the live fan state and 0 %
for the other side, with zero ON and OFF second totals — division by
zero is avoided, but the percentages are not both 0 as the original
claim states (refuted by `chart_data_calc_zero_duration_not_zero`). -/
theorem chart_data_calc_zero_duration (h : List (ℚ × Bool)) (cur : Bool) (now d buf : ℚ)
    (h0 : (chart_data_calc h cur now d buf).total_charted_seconds = 0) :
    (chart_data_calc h cur now d buf).on_percentage = (if cur then 100 else 0) ∧
    (chart_data_calc h cur now d buf).off_percentage = (if cur then 0 else 100) ∧
    (chart_data_calc h cur now d buf).total_on_seconds = 0 ∧
    (chart_data_calc h cur now d buf).total_off_seconds = 0 := by
  unfold chart_data_calc at h0 ⊢
  dsimp only at h0 ⊢
  split at h0 <;> rename_i hc
  · rw [if_pos hc]
    cases cur <;> norm_num
  · dsimp only at h0
    exact absurd (le_of_eq h0) hc

/-- Witness for `chart_data_calc_zero_duration`: empty history, zero
requested duration, fan ON — the total charted duration is zero and
the ON percentage is reported as 100. -/
theorem chart_data_calc_zero_duration_witness :
    (chart_data_calc [] true 100 0 2).total_charted_seconds = 0 ∧
    (chart_data_calc [] true 100 0 2).on_percentage = 100 := by
  have h0 : (chart_data_calc [] true 100 0 2).total_charted_seconds = 0 := by
    norm_num [chart_data_calc, chart_history_copy, chart_window_start_calc]
  refine ⟨h0, ?_⟩
  have h1 := (chart_data_calc_zero_duration [] true 100 0 2 h0).1
  simpa using h1

/-- Counterexample to claim C4 as stated: on a zero-duration window
with the fan ON the code reports an ON percentage of 100, not 0 (and
an OFF percentage of 0, so the two sides are 100/0, not 0/0). -/
theorem chart_data_calc_zero_duration_not_zero :
    (chart_data_calc [] true 100 0 2).total_charted_seconds = 0 ∧
    (chart_data_calc [] true 100 0 2).on_percentage = 100 ∧
    (100 : ℚ) ≠ 0 := by
  norm_num [chart_data_calc, chart_history_copy, chart_window_start_calc]

/-- When the queried timestamp is the earliest event's timestamp and
all later events are strictly newer, the backward scan of
`_get_state_at_time` lands on that earliest event. -/
theorem get_state_at_time_head (t₀ : ℚ) (s₀ : Bool) (rest : List (ℚ × Bool)) (cur : Bool)
    (hs : ∀ e ∈ rest, t₀ < e.1) :
    _get_state_at_time t₀ ((t₀, s₀) :: rest) cur = s₀ := by
  unfold _get_state_at_time
  rw [List.reverse_cons, List.find?_append]
  have h1 : rest.reverse.find? (fun e => decide (e.1 ≤ t₀)) = none := by
    rw [List.find?_eq_none]
    intro e he
    simp only [decide_eq_true_eq, not_le]
    exact hs e (List.mem_reverse.mp he)
  rw [h1]
  simp

/-- Claim C3 (amended): when the query window start `now - duration`
strictly precedes every logged event and the log is non-empty, the
code shrinks the charted window to begin at the earliest event's
timestamp — the total charted duration is `now - t₀`, so the span from
the window start to the first event is excluded from the totals rather
than attributed to the earliest event's state — and the state assumed
at the (shrunk) window start is the earliest event's state.  The
original claim, that the whole span from the window start to the first
event is attributed to the earliest event's state, is refuted by
`chart_data_calc_drops_pre_event_span`. -/
theorem chart_data_calc_window_precedes_history (t₀ : ℚ) (s₀ : Bool)
    (rest : List (ℚ × Bool)) (cur : Bool) (now d buf : ℚ)
    (hsorted : ((t₀, s₀) :: rest).Pairwise (fun a b => a.1 < b.1))
    (hcut : now - d < t₀) (hnow : t₀ < now) (hbuf : 0 ≤ buf) :
    (chart_data_calc ((t₀, s₀) :: rest) cur now d buf).total_charted_seconds =
      now - t₀ ∧
    _get_state_at_time t₀ ((t₀, s₀) :: rest) cur = s₀ := by
  have hrest : ∀ e ∈ rest, t₀ < e.1 := by
    rw [List.pairwise_cons] at hsorted
    intro e he
    exact hsorted.1 e he
  have hcopy : chart_history_copy ((t₀, s₀) :: rest) (now - d) buf = (t₀, s₀) :: rest := by
    unfold chart_history_copy
    rw [List.filter_eq_self]
    intro a ha
    simp only [decide_eq_true_eq, ge_iff_le]
    rcases List.mem_cons.mp ha with rfl | ha
    · dsimp only
      linarith
    · have := hrest a ha
      linarith
  have hws : chart_window_start_calc ((t₀, s₀) :: rest) (now - d) now = t₀ := by
    show (if max (now - d) t₀ > now then now else max (now - d) t₀) = t₀
    rw [max_eq_right (le_of_lt hcut)]
    exact if_neg (not_lt.mpr (le_of_lt hnow))
  constructor
  · unfold chart_data_calc
    dsimp only
    rw [hcopy, hws, if_neg (not_le.mpr (sub_pos.mpr hnow))]
  · exact get_state_at_time_head t₀ s₀ rest cur hrest

/-- Witness for `chart_data_calc_window_precedes_history`: a single
event at time 100 with a window reaching back to time 0 — the charted
total is 100 seconds and the assumed start state is the event's. -/
theorem chart_data_calc_window_precedes_history_witness :
    (chart_data_calc [((100 : ℚ), true)] true 200 200 2).total_charted_seconds =
      200 - 100 ∧
    _get_state_at_time 100 [((100 : ℚ), true)] true = true := by
  exact chart_data_calc_window_precedes_history 100 true [] true 200 200 2
    (by simp) (by norm_num) (by norm_num) (by norm_num)

/-- Counterexample to claim C3 as stated: one event `(100, ON)`,
current state ON, window `[0, 200]`.  If the span from the window start
to the first event were attributed to the earliest event's state, the
ON total (and the charted total) would be 200 seconds; the code
reports 100 of each — the pre-event span is dropped. -/
theorem chart_data_calc_drops_pre_event_span :
    (chart_data_calc [((100 : ℚ), true)] true 200 200 2).total_on_seconds = 100 ∧
    (chart_data_calc [((100 : ℚ), true)] true 200 200 2).total_charted_seconds = 100 ∧
    (100 : ℚ) ≠ 200 := by
  norm_num [chart_data_calc, chart_history_copy, chart_window_start_calc,
    _get_state_at_time, accumulate_pie]

/-! ## Byte-command derivation (`derive_byte_commands`, lines 138-176) -/

/-- The value of a single hexadecimal digit as accepted by Python's
`bytes.fromhex`, or `none` for a non-hex character. -/
def hexDigitVal (c : Char) : Option Nat :=
  if '0' ≤ c ∧ c ≤ '9' then some (c.toNat - '0'.toNat)
  else if 'a' ≤ c ∧ c ≤ 'f' then some (c.toNat - 'a'.toNat + 10)
  else if 'A' ≤ c ∧ c ≤ 'F' then some (c.toNat - 'A'.toNat + 10)
  else none

/-- Decode an even-length run of hex digits into byte values;
`none` on an odd count or a non-hex character. -/
def hexPairsToBytes : List Char → Option (List Nat)
  | [] => some []
  | [_] => none
  | c1 :: c2 :: rest => do
    let hi ← hexDigitVal c1
    let lo ← hexDigitVal c2
    let tail ← hexPairsToBytes rest
    pure ((hi * 16 + lo) :: tail)

/-- Python's `bytes.fromhex`: spaces are skipped, the remaining
characters must form an even number of hex digits; raises (here:
`none`) otherwise. -/
def bytes_fromhex (s : String) : Option (List Nat) :=
  hexPairsToBytes (s.data.filter (fun c => decide (c ≠ ' ')))

/-- `DEFAULT_SETTINGS["command_open_hex"]` (line 18). -/
def DEFAULT_command_open_hex : String := "A00101A2"

/-- `DEFAULT_SETTINGS["command_close_hex"]` (line 19). -/
def DEFAULT_command_close_hex : String := "A00100A1"

/-- The effect of one call to `derive_byte_commands` (lines 138-176):
the first two fields are the values assigned to the globals
`command_open_bytes` / `command_close_bytes` when `update_global` is
true (on a decode failure the DEFAULT command's bytes are substituted);
`returned` is the function's return value, which is `(open, close)`
only when both provided hex strings decoded and `(None, None)`
otherwise. -/
structure DeriveResult where
  command_open_bytes : List Nat
  command_close_bytes : List Nat
  returned : Option (List Nat × List Nat)
  deriving Repr, DecidableEq

def derive_byte_commands (open_hex close_hex : String) : DeriveResult :=
  let open_default := (bytes_fromhex DEFAULT_command_open_hex).getD []
  let close_default := (bytes_fromhex DEFAULT_command_close_hex).getD []
  match bytes_fromhex open_hex, bytes_fromhex close_hex with
  | some ob, some cb => ⟨ob, cb, some (ob, cb)⟩
  | some ob, none => ⟨ob, close_default, none⟩
  | none, some cb => ⟨open_default, cb, none⟩
  | none, none => ⟨open_default, close_default, none⟩

/-- `derive_byte_commands` returns `(None, None)` whenever the open
hex string fails to decode, whatever the close string. -/
theorem derive_byte_commands_returned_none_left (open_hex close_hex : String)
    (h : bytes_fromhex open_hex = none) :
    (derive_byte_commands open_hex close_hex).returned = none := by
  unfold derive_byte_commands
  rw [h]
  cases bytes_fromhex close_hex <;> rfl

/-- `derive_byte_commands` returns `(None, None)` whenever the close
hex string fails to decode, whatever the open string. -/
theorem derive_byte_commands_returned_none_right (open_hex close_hex : String)
    (h : bytes_fromhex close_hex = none) :
    (derive_byte_commands open_hex close_hex).returned = none := by
  unfold derive_byte_commands
  rw [h]
  cases bytes_fromhex open_hex <;> rfl

/-! ## Settings validation and commit (`update_settings`, lines 495-594) -/

/-- The submitted settings form.  A numeric field is `none` when the
Python conversion (`float(...)` at lines 505-506, `int(...)` at lines
540 and 549) raises `ValueError`; `temp_path` carries the submitted
text after `.strip()`. -/
structure SettingsForm where
  threshold_ceiling : Option ℚ
  threshold_floor : Option ℚ
  command_open_hex : String
  command_close_hex : String
  temp_path : String
  check_interval_seconds : Option ℤ
  history_duration_hours : Option ℤ
  deriving Repr, DecidableEq

/-- One entry of `form_errors`, tagged by the flash message appended
at the corresponding line of `update_settings`. -/
inductive FormError where
  /-- Floor threshold must be lower than ceiling threshold. -/
  | floorNotBelowCeiling
  /-- Invalid hex format for ON command. -/
  | invalidOpenHex
  /-- Invalid hex format for OFF command. -/
  | invalidCloseHex
  /-- Temperature path cannot be empty. -/
  | emptyTempPath
  /-- Check interval must be a positive integer. -/
  | intervalNotPositive
  /-- Invalid number format for check interval. -/
  | invalidIntervalFormat
  /-- History duration must be a positive integer. -/
  | durationNotPositive
  /-- Invalid number format for history duration. -/
  | invalidDurationFormat
  /-- Invalid number format in form data — the outer ValueError
  handler at line 558, reached when a threshold fails to convert. -/
  | numberFormat
  deriving Repr, DecidableEq

/-- The validation pass of `update_settings` (lines 500-561).  Both
threshold conversions run first; a conversion failure jumps to the
outer `except ValueError` handler at line 558 with only the
number-format error, abandoning the remaining checks.  Otherwise every
rule appends its violations to `form_errors`: the floor/ceiling
relation, the hex commands (a failure of either makes
`derive_byte_commands` return `(None, None)`, so both command errors
are appended), the non-empty path, and the two positive-integer
fields, whose own conversion failures are caught locally. -/
def update_settings_validate (form : SettingsForm) : List FormError :=
  match form.threshold_ceiling, form.threshold_floor with
  | some new_ceiling, some new_floor =>
    let threshold_errors :=
      if new_floor ≥ new_ceiling then [FormError.floorNotBelowCeiling] else []
    let hex_ok :=
      (derive_byte_commands form.command_open_hex form.command_close_hex).returned.isSome
    let open_errors := if hex_ok then [] else [FormError.invalidOpenHex]
    let close_errors := if hex_ok then [] else [FormError.invalidCloseHex]
    let path_errors := if form.temp_path = "" then [FormError.emptyTempPath] else []
    let interval_errors :=
      match form.check_interval_seconds with
      | none => [FormError.invalidIntervalFormat]
      | some v => if v ≤ 0 then [FormError.intervalNotPositive] else []
    let duration_errors :=
      match form.history_duration_hours with
      | none => [FormError.invalidDurationFormat]
      | some v => if v ≤ 0 then [FormError.durationNotPositive] else []
    threshold_errors ++ open_errors ++ close_errors ++ path_errors ++
      interval_errors ++ duration_errors
  | _, _ => [FormError.numberFormat]

/-- Claim C6 (amended): provided both threshold fields convert to
numbers, every violation among the validation rules is reported
together — the floor/ceiling relation, the hex commands (a decode
failure of either reports both command errors), the empty path, and
the two positive-integer fields including their local conversion
failures.  When a threshold fails to convert, however, validation
aborts with the single number-format error and no other violation is
reported (refuted for the original claim by
`update_settings_validate_short_circuits`). -/
theorem update_settings_validate_reports_all (c f : ℚ) (oh ch path : String)
    (ci hd : Option ℤ) :
    (f ≥ c → FormError.floorNotBelowCeiling ∈
      update_settings_validate ⟨some c, some f, oh, ch, path, ci, hd⟩) ∧
    (bytes_fromhex oh = none → FormError.invalidOpenHex ∈
      update_settings_validate ⟨some c, some f, oh, ch, path, ci, hd⟩ ∧
      FormError.invalidCloseHex ∈
      update_settings_validate ⟨some c, some f, oh, ch, path, ci, hd⟩) ∧
    (bytes_fromhex ch = none → FormError.invalidOpenHex ∈
      update_settings_validate ⟨some c, some f, oh, ch, path, ci, hd⟩ ∧
      FormError.invalidCloseHex ∈
      update_settings_validate ⟨some c, some f, oh, ch, path, ci, hd⟩) ∧
    (path = "" → FormError.emptyTempPath ∈
      update_settings_validate ⟨some c, some f, oh, ch, path, ci, hd⟩) ∧
    (ci = none → FormError.invalidIntervalFormat ∈
      update_settings_validate ⟨some c, some f, oh, ch, path, ci, hd⟩) ∧
    (∀ v : ℤ, ci = some v → v ≤ 0 → FormError.intervalNotPositive ∈
      update_settings_validate ⟨some c, some f, oh, ch, path, ci, hd⟩) ∧
    (hd = none → FormError.invalidDurationFormat ∈
      update_settings_validate ⟨some c, some f, oh, ch, path, ci, hd⟩) ∧
    (∀ v : ℤ, hd = some v → v ≤ 0 → FormError.durationNotPositive ∈
      update_settings_validate ⟨some c, some f, oh, ch, path, ci, hd⟩) := by
  refine ⟨?_, ?_, ?_, ?_, ?_, ?_, ?_, ?_⟩
  · intro h
    simp [update_settings_validate, h]
  · intro h
    have hr := derive_byte_commands_returned_none_left oh ch h
    constructor <;> simp [update_settings_validate, hr]
  · intro h
    have hr := derive_byte_commands_returned_none_right oh ch h
    constructor <;> simp [update_settings_validate, hr]
  · intro h
    simp [update_settings_validate, h]
  · intro h
    simp [update_settings_validate, h]
  · intro v hv h
    subst hv
    simp [update_settings_validate, h]
  · intro h
    simp [update_settings_validate, h]
  · intro v hv h
    subst hv
    simp [update_settings_validate, h]

/-- Witness for `update_settings_validate_reports_all`: a form with an
inverted threshold pair, an undecodable OFF command, an empty path and
a zero interval reports all of those violations in one pass. -/
theorem update_settings_validate_reports_all_witness :
    (50 : ℚ) ≥ 49 ∧ bytes_fromhex "XY" = none ∧
    FormError.floorNotBelowCeiling ∈
      update_settings_validate ⟨some 49, some 50, "A00101A2", "XY", "", some 0, some 24⟩ ∧
    FormError.invalidCloseHex ∈
      update_settings_validate ⟨some 49, some 50, "A00101A2", "XY", "", some 0, some 24⟩ ∧
    FormError.emptyTempPath ∈
      update_settings_validate ⟨some 49, some 50, "A00101A2", "XY", "", some 0, some 24⟩ ∧
    FormError.intervalNotPositive ∈
      update_settings_validate ⟨some 49, some 50, "A00101A2", "XY", "", some 0, some 24⟩ := by
  have h := update_settings_validate_reports_all 49 50 "A00101A2" "XY" "" (some 0) (some 24)
  refine ⟨by norm_num, rfl, h.1 (by norm_num), (h.2.2.1 rfl).2, h.2.2.2.1 rfl,
    h.2.2.2.2.2.1 0 rfl le_rfl⟩

/-- Counterexample to claim C6 as stated: a form whose ceiling field
fails the `float(...)` conversion and whose ON command is
hex-undecodable reports only the number-format error — the hex
violation present in the candidate is not reported, because the
threshold conversion failure short-circuits every later check. -/
theorem update_settings_validate_short_circuits :
    update_settings_validate ⟨none, some 45, "ZZ", "A00100A1", "/sys/x", some 2, some 24⟩ =
      [FormError.numberFormat] ∧
    bytes_fromhex "ZZ" = none ∧
    FormError.invalidOpenHex ∉
      update_settings_validate ⟨none, some 45, "ZZ", "A00100A1", "/sys/x", some 2, some 24⟩ := by
  refine ⟨rfl, rfl, by decide⟩

/-- The runtime settings dictionary, with the keys of
`DEFAULT_SETTINGS` (lines 13-23). -/
structure RuntimeSettings where
  serial_port : String
  baud_rate : ℤ
  threshold_ceiling : ℚ
  threshold_floor : ℚ
  command_open_hex : String
  command_close_hex : String
  temp_path : String
  check_interval_seconds : ℤ
  history_duration_hours : ℤ
  deriving Repr, DecidableEq

/-- `DEFAULT_SETTINGS` (lines 13-23). -/
def DEFAULT_SETTINGS : RuntimeSettings where
  serial_port := "/dev/ttyUSB0"
  baud_rate := 9600
  threshold_ceiling := 49.5
  threshold_floor := 45.0
  command_open_hex := DEFAULT_command_open_hex
  command_close_hex := DEFAULT_command_close_hex
  temp_path := "/sys/class/hwmon/hwmon0/temp1_input"
  check_interval_seconds := 2
  history_duration_hours := 24

/-- The fields collected into `updated_settings` by a fully validated
form (every rule passed, so all seven fields are present). -/
structure ValidatedUpdate where
  threshold_ceiling : ℚ
  threshold_floor : ℚ
  command_open_hex : String
  command_close_hex : String
  temp_path : String
  check_interval_seconds : ℤ
  history_duration_hours : ℤ
  deriving Repr, DecidableEq

/-- The commit step of `update_settings` after validation succeeded
(lines 567-591): the validated fields are merged into a copy of the
current settings, interval and duration are clamped to at least 1,
and the copy is saved to disk.  Only when `save_settings` succeeds is
the in-memory `current_settings` replaced by the merged copy; on a
save failure `current_settings` is left untouched while the flash
message still says the settings were updated in memory.  Returns the
resulting in-memory settings and the flash message. -/
def update_settings_commit (current : RuntimeSettings) (upd : ValidatedUpdate)
    (save_ok : Bool) : RuntimeSettings × String :=
  let settings_to_save : RuntimeSettings :=
    { current with
      threshold_ceiling := upd.threshold_ceiling
      threshold_floor := upd.threshold_floor
      command_open_hex := upd.command_open_hex
      command_close_hex := upd.command_close_hex
      temp_path := upd.temp_path
      check_interval_seconds := max 1 upd.check_interval_seconds
      history_duration_hours := max 1 upd.history_duration_hours }
  if save_ok then
    (settings_to_save, "Settings updated successfully!")
  else
    (current, "Settings updated in memory, but failed to save to file!")

/-- Claim C7 (code bug): when the save-to-disk step of a validated
update fails, the in-memory settings are NOT replaced — the validated
new ceiling 60 is discarded and the old ceiling 49.5 stays — even
though the flash message issued on exactly this path claims the
settings were updated in memory.  This contradicts both the spec and
the code's own user-facing message. -/
theorem update_settings_commit_save_failure_discards :
    (update_settings_commit DEFAULT_SETTINGS
        ⟨60, 45.0, "A00101A2", "A00100A1", "/sys/class/hwmon/hwmon0/temp1_input", 2, 24⟩
        false).1.threshold_ceiling = 49.5 ∧
    (update_settings_commit DEFAULT_SETTINGS
        ⟨60, 45.0, "A00101A2", "A00100A1", "/sys/class/hwmon/hwmon0/temp1_input", 2, 24⟩
        false).2 = "Settings updated in memory, but failed to save to file!" ∧
    (49.5 : ℚ) ≠ 60 := by
  refine ⟨rfl, rfl, by norm_num⟩

/-- Claim C8 (amended): an undecodable open command is rejected at the
settings-update boundary — validation reports it (and
`derive_byte_commands` returns `(None, None)`, so the update is never
applied) — but at the load boundary the same undecodable hex is not
rejected: the derived global open command silently falls back to the
bytes of the default open command. -/
theorem command_hex_boundary (oh ch path : String) (c f : ℚ) (ci hd : Option ℤ)
    (h : bytes_fromhex oh = none) :
    FormError.invalidOpenHex ∈
      update_settings_validate ⟨some c, some f, oh, ch, path, ci, hd⟩ ∧
    (derive_byte_commands oh ch).returned = none ∧
    (derive_byte_commands oh ch).command_open_bytes =
      (bytes_fromhex DEFAULT_command_open_hex).getD [] := by
  refine ⟨((update_settings_validate_reports_all c f oh ch path ci hd).2.1 h).1,
    derive_byte_commands_returned_none_left oh ch h, ?_⟩
  unfold derive_byte_commands
  rw [h]
  cases bytes_fromhex ch <;> rfl

/-- Witness for `command_hex_boundary` with the undecodable open
command hex string ZZ. -/
theorem command_hex_boundary_witness :
    bytes_fromhex "ZZ" = none ∧
    FormError.invalidOpenHex ∈
      update_settings_validate
        ⟨some 49.5, some 45.0, "ZZ", "A00100A1", "/sys/x", some 2, some 24⟩ ∧
    (derive_byte_commands "ZZ" "A00100A1").command_open_bytes =
      (bytes_fromhex DEFAULT_command_open_hex).getD [] := by
  have h := command_hex_boundary "ZZ" "A00100A1" "/sys/x" 49.5 45.0 (some 2) (some 24) rfl
  exact ⟨rfl, h.1, h.2.2⟩

/-- Counterexample to claim C8 as stated: the hex string ZZ is not
decodable, yet `derive_byte_commands` (used by `load_settings` with
`update_global=True`) does not reject it — it silently sets the global
open command to the default payload `A00101A2` = `[160, 1, 1, 162]`. -/
theorem derive_byte_commands_substitutes_default :
    bytes_fromhex "ZZ" = none ∧
    (derive_byte_commands "ZZ" DEFAULT_command_close_hex).command_open_bytes =
      [160, 1, 1, 162] ∧
    bytes_fromhex DEFAULT_command_open_hex = some [160, 1, 1, 162] := by
  refine ⟨rfl, rfl, rfl⟩

/-! ## Fault recording (`init_serial`, `set_fan`, `get_ssd_temp`, lines 178-322)

The code classifies the pending `last_error` by substring matching on
its message text, not by a subsystem tag. -/

/-- Occurrence of `pat` anywhere in a character list (Python's
`pat in s`). -/
def containsSubList (pat : List Char) : List Char → Bool
  | [] => pat.isPrefixOf []
  | c :: rest => pat.isPrefixOf (c :: rest) || containsSubList pat rest

/-- Python's `pat in s` on strings. -/
def strContains (s pat : String) : Bool := containsSubList pat.data s.data

/-- Python's `s.lower()` for the ASCII messages involved. -/
def strLower (s : String) : String := String.mk (s.data.map Char.toLower)

/-- The message set by a failed `serial.Serial` open in `init_serial`
(line 205). -/
def serial_open_error_msg (port e : String) : String :=
  "Cannot open serial port " ++ port ++ ": " ++ e

/-- The message set by a `SerialException` during `ser.write` in
`set_fan` (line 257). -/
def serial_send_error_msg (action e : String) : String :=
  "Serial error sending " ++ action ++ " command: " ++ e

/-- The message set by the `FileNotFoundError` branch of
`get_ssd_temp` (line 302). -/
def temp_file_not_found_msg (path : String) : String :=
  "Temperature file " ++ path ++ " not found. Check path in settings."

/-- `set_fan` failure paths (lines 256-274): the new actuator message
replaces `last_error` unconditionally, whatever fault was pending. -/
def set_fan_failure_update (error_msg : String) (_last_error : Option String) :
    Option String :=
  some error_msg

/-- `set_fan` success path (lines 251-254): clear `last_error` only if
it contains a send-error phrase; leave any other pending fault. -/
def set_fan_success_update (last_error : Option String) : Option String :=
  match last_error with
  | none => none
  | some s =>
    if strContains s "Serial error sending" || strContains s "Error sending" then none
    else some s

/-- `init_serial` success path (lines 198-202): clear `last_error`
only if its lower-cased text mentions the serial port. -/
def init_serial_success_update (last_error : Option String) : Option String :=
  match last_error with
  | none => none
  | some s => if strContains (strLower s) "serial port" then none else some s

/-- The `except FileNotFoundError` branch of `get_ssd_temp` (lines
301-311): the sensor message replaces `last_error` unless the pending
lower-cased message mentions the serial port. -/
def get_ssd_temp_not_found_update (error_msg : String) (last_error : Option String) :
    Option String :=
  match last_error with
  | none => some error_msg
  | some s =>
    if strContains s "Temperature file" then some error_msg
    else if strContains (strLower s) "serial port" then some s
    else some error_msg

/-- Claim C9 (amended): fault recording is substring-classified, not
subsystem-classified.  A success does stay in its lane: a successful
send clears only send-error messages and preserves a pending sensor
fault, and a successful serial open preserves a pending sensor fault.
But fault recording does not: a new actuator send fault replaces ANY
pending fault — including an unresolved sensor fault — and a new
sensor fault preserves a pending serial-open fault (whose text
mentions the serial port) yet replaces a pending actuator send fault
(whose text does not). -/
theorem last_error_substring_classification :
    (∀ m le, set_fan_failure_update m le = some m) ∧
    set_fan_success_update
        (some (temp_file_not_found_msg "/sys/class/hwmon/hwmon0/temp1_input")) =
      some (temp_file_not_found_msg "/sys/class/hwmon/hwmon0/temp1_input") ∧
    set_fan_success_update (some (serial_send_error_msg "ON" "device reports readiness")) =
      none ∧
    init_serial_success_update
        (some (temp_file_not_found_msg "/sys/class/hwmon/hwmon0/temp1_input")) =
      some (temp_file_not_found_msg "/sys/class/hwmon/hwmon0/temp1_input") ∧
    get_ssd_temp_not_found_update (temp_file_not_found_msg "/sys/t")
        (some (serial_open_error_msg "/dev/ttyUSB0" "device busy")) =
      some (serial_open_error_msg "/dev/ttyUSB0" "device busy") ∧
    get_ssd_temp_not_found_update (temp_file_not_found_msg "/sys/t")
        (some (serial_send_error_msg "OFF" "device busy")) =
      some (temp_file_not_found_msg "/sys/t") := by
  refine ⟨fun m le => rfl, ?_, ?_, ?_, ?_, ?_⟩ <;> decide

/-- Counterexample to claim C9 as stated: an unresolved actuator fault
(a failed ON send) is erased by a later sensor fault (temperature file
not found) — the other subsystem's still-active fault is not left
untouched. -/
theorem sensor_fault_erases_actuator_fault :
    get_ssd_temp_not_found_update
        (temp_file_not_found_msg "/sys/class/hwmon/hwmon0/temp1_input")
        (some (serial_send_error_msg "ON" "write failed")) =
      some (temp_file_not_found_msg "/sys/class/hwmon/hwmon0/temp1_input") ∧
    temp_file_not_found_msg "/sys/class/hwmon/hwmon0/temp1_input" ≠
      serial_send_error_msg "ON" "write failed" := by
  constructor <;> decide

end FanController
